import Mathlib

/-!
Shallow embedding of the QuantX live-trading execution core
(src/quantx/execution), with theorems checking the natural-language
specification against the code.

Modelling conventions:
* Python floats are modelled as rationals (ℚ); the arithmetic of every
  claim below is exact in binary floating point at the inputs used, so
  the ℚ model agrees with the float computation there.
* Python datetime values are modelled as rationals (seconds); a calendar
  date is the floor of the timestamp divided by 86400.
* Python dicts are modelled as insertion-ordered association lists with
  update-in-place semantics (dictSet), mirroring dict iteration order.
* numpy.log is transcendental and not representable in ℚ; the paper
  broker model carries an uninterpreted function log1p : ℚ → ℚ standing
  for x ↦ np.log(1 + x).  No claim below depends on its values.
-/

namespace QuantX

/-- Insertion-ordered dictionary lookup (Python d[k] / d.get(k)). -/
def dictGet? {κ α : Type} [DecidableEq κ] : List (κ × α) → κ → Option α
  | [], _ => none
  | (k', v) :: rest, k => if k' = k then some v else dictGet? rest k

/-- Insertion-ordered dictionary update (Python d[k] = v): replaces the
value in place if the key exists, else appends at the end. -/
def dictSet {κ α : Type} [DecidableEq κ] : List (κ × α) → κ → α → List (κ × α)
  | [], k, v => [(k, v)]
  | (k', v') :: rest, k, v =>
      if k' = k then (k, v) :: rest else (k', v') :: dictSet rest k v

/-- Dictionary membership (Python k in d). -/
def dictMem {κ α : Type} [DecidableEq κ] (d : List (κ × α)) (k : κ) : Bool :=
  (dictGet? d k).isSome

/-- Calendar date of a timestamp (Python datetime.date()), as a day index. -/
def dateOf (t : ℚ) : ℤ := ⌊t / 86400⌋

/-- OrderSide enum (brokers/base.py). -/
inductive OrderSide
  | buy
  | sell
  deriving DecidableEq

/-- OrderType enum (brokers/base.py). -/
inductive OrderType
  | market
  | limit
  | stop
  | stopLimit
  deriving DecidableEq

/-- OrderStatus enum (brokers/base.py). -/
inductive OrderStatus
  | created
  | pending
  | submitted
  | partiallyFilled
  | filled
  | cancelled
  | rejected
  | expired
  deriving DecidableEq

/-- Order dataclass (brokers/base.py).  Metadata is omitted: it is an
opaque free-form dict never read by the execution core logic. -/
structure Order where
  order_id : String
  symbol : String
  side : OrderSide
  order_type : OrderType
  quantity : ℚ
  price : Option ℚ := none
  stop_price : Option ℚ := none
  status : OrderStatus := OrderStatus.created
  filled_quantity : ℚ := 0
  average_fill_price : ℚ := 0
  created_at : ℚ := 0
  submitted_at : Option ℚ := none
  filled_at : Option ℚ := none
  deriving DecidableEq

/-- Order.is_open property (brokers/base.py line 78). -/
def Order.is_open (o : Order) : Bool :=
  o.status = OrderStatus.pending ∨ o.status = OrderStatus.submitted ∨
    o.status = OrderStatus.partiallyFilled

/-- Fill dataclass (brokers/base.py). -/
structure Fill where
  fill_id : String
  order_id : String
  symbol : String
  side : OrderSide
  quantity : ℚ
  price : ℚ
  commission : ℚ
  timestamp : ℚ
  deriving DecidableEq

/-- Fill.total_cost property (brokers/base.py line 111). -/
def Fill.total_cost (f : Fill) : ℚ := f.quantity * f.price + f.commission

/-- Position dataclass (brokers/base.py). -/
structure Position where
  symbol : String
  quantity : ℚ
  average_price : ℚ
  current_price : ℚ
  market_value : ℚ
  unrealized_pnl : ℚ
  realized_pnl : ℚ := 0
  deriving DecidableEq

/-- Account dataclass (brokers/base.py). -/
structure Account where
  account_id : String
  cash : ℚ
  equity : ℚ
  buying_power : ℚ
  positions_value : ℚ
  unrealized_pnl : ℚ
  realized_pnl : ℚ
  initial_capital : ℚ
  deriving DecidableEq

/-! ## P&L tracker (live_pnl.py) -/

/-- TradeRecord dataclass (live_pnl.py). -/
structure TradeRecord where
  symbol : String
  entry_time : ℚ
  exit_time : ℚ
  entry_price : ℚ
  exit_price : ℚ
  quantity : ℚ
  side : String
  pnl : ℚ
  pnl_pct : ℚ
  commission : ℚ
  net_pnl : ℚ
  deriving DecidableEq

/-- DailyPnL dataclass (live_pnl.py).  The Python record also stores a
date field set to the wall-clock day at creation; here the day is the
dictionary key, which is what all computations use. -/
structure DailyPnL where
  day : ℤ
  realized_pnl : ℚ := 0
  unrealized_pnl : ℚ := 0
  commission : ℚ := 0
  trades : ℕ := 0
  winning_trades : ℕ := 0
  losing_trades : ℕ := 0
  deriving DecidableEq

/-- LivePnLTracker state (live_pnl.py lines 93-121). -/
structure LivePnLTracker where
  initial_capital : ℚ
  start_time : ℚ
  realized_pnl : ℚ := 0
  total_commission : ℚ := 0
  position_pnl : List (String × ℚ) := []
  daily_pnl : List (ℤ × DailyPnL) := []
  trades : List TradeRecord := []
  equity_curve : List (ℚ × ℚ)
  peak_equity : ℚ
  max_drawdown : ℚ := 0
  deriving DecidableEq

/-- LivePnLTracker.__init__ (live_pnl.py lines 93-121). -/
def LivePnLTracker.init (initial_capital start_time : ℚ) : LivePnLTracker :=
  { initial_capital := initial_capital
    start_time := start_time
    equity_curve := [(start_time, initial_capital)]
    peak_equity := initial_capital }

/-- LivePnLTracker.get_unrealized_pnl (live_pnl.py line 290). -/
def LivePnLTracker.get_unrealized_pnl (t : LivePnLTracker) : ℚ :=
  (t.position_pnl.map (fun p => p.2)).sum

/-- LivePnLTracker.get_total_pnl (live_pnl.py line 294). -/
def LivePnLTracker.get_total_pnl (t : LivePnLTracker) : ℚ :=
  t.realized_pnl + t.get_unrealized_pnl

/-- LivePnLTracker.get_total_equity (live_pnl.py line 298). -/
def LivePnLTracker.get_total_equity (t : LivePnLTracker) : ℚ :=
  t.initial_capital + t.get_total_pnl

/-- LivePnLTracker.get_current_drawdown (live_pnl.py lines 302-307).
Note the result is a percentage: the fraction is multiplied by 100. -/
def LivePnLTracker.get_current_drawdown (t : LivePnLTracker) : ℚ :=
  if t.peak_equity = 0 then 0
  else (t.peak_equity - t.get_total_equity) / t.peak_equity * 100

/-- LivePnLTracker.update_position_pnl (live_pnl.py lines 123-152). -/
def LivePnLTracker.update_position_pnl (t : LivePnLTracker) (symbol : String)
    (quantity average_price current_price : ℚ) : LivePnLTracker × ℚ :=
  if quantity = 0 then
    ({ t with position_pnl := dictSet t.position_pnl symbol 0 }, 0)
  else
    let pnl := (current_price - average_price) * quantity
    ({ t with position_pnl := dictSet t.position_pnl symbol pnl }, pnl)

/-- LivePnLTracker.record_trade (live_pnl.py lines 169-256). -/
def LivePnLTracker.record_trade (t : LivePnLTracker) (symbol : String)
    (entry_time exit_time entry_price exit_price quantity : ℚ)
    (side : String) (commission : ℚ) : LivePnLTracker × TradeRecord :=
  let pnl := if side = "long" then (exit_price - entry_price) * quantity
             else (entry_price - exit_price) * quantity
  let pnl_pct := if entry_price * quantity ≠ 0
                 then pnl / (entry_price * quantity) * 100 else 0
  let net_pnl := pnl - commission
  let trade : TradeRecord :=
    { symbol := symbol, entry_time := entry_time, exit_time := exit_time
      entry_price := entry_price, exit_price := exit_price
      quantity := quantity, side := side, pnl := pnl, pnl_pct := pnl_pct
      commission := commission, net_pnl := net_pnl }
  let t := { t with realized_pnl := t.realized_pnl + net_pnl
                    total_commission := t.total_commission + commission }
  let today := dateOf exit_time
  let daily := (dictGet? t.daily_pnl today).getD { day := today }
  let daily := { daily with realized_pnl := daily.realized_pnl + net_pnl
                            commission := daily.commission + commission
                            trades := daily.trades + 1 }
  let daily := if net_pnl > 0 then
                 { daily with winning_trades := daily.winning_trades + 1 }
               else if net_pnl < 0 then
                 { daily with losing_trades := daily.losing_trades + 1 }
               else daily
  let t := { t with daily_pnl := dictSet t.daily_pnl today daily
                    trades := t.trades ++ [trade] }
  let current_equity := t.get_total_equity
  let t := { t with equity_curve := t.equity_curve ++ [(exit_time, current_equity)] }
  let t := if current_equity > t.peak_equity
           then { t with peak_equity := current_equity } else t
  let drawdown := if t.peak_equity > 0
                  then (t.peak_equity - current_equity) / t.peak_equity * 100 else 0
  let t := if drawdown > t.max_drawdown
           then { t with max_drawdown := drawdown } else t
  (t, trade)

/-- LivePnLTracker.record_fill (live_pnl.py lines 258-288). -/
def LivePnLTracker.record_fill (t : LivePnLTracker) (fill : Fill)
    (is_entry : Bool) (entry_price : Option ℚ) :
    LivePnLTracker × Option TradeRecord :=
  let t := { t with total_commission := t.total_commission + fill.commission }
  match is_entry, entry_price with
  | false, some p =>
      let side := if fill.side = OrderSide.sell then "long" else "short"
      let r := t.record_trade fill.symbol (fill.timestamp - 3600) fill.timestamp
        p fill.price fill.quantity side fill.commission
      (r.1, some r.2)
  | _, _ => (t, none)

/-- One externally observable mutation of a LivePnLTracker. -/
inductive PnLOp
  | trade (symbol : String) (entry_time exit_time entry_price exit_price
      quantity : ℚ) (side : String) (commission : ℚ)
  | fill (f : Fill) (is_entry : Bool) (entry_price : Option ℚ)
  | posUpdate (symbol : String) (quantity average_price current_price : ℚ)

/-- Apply one tracker operation. -/
def PnLOp.apply (t : LivePnLTracker) : PnLOp → LivePnLTracker
  | PnLOp.trade sy et xt ep xp q sd c => (t.record_trade sy et xt ep xp q sd c).1
  | PnLOp.fill f e p => (t.record_fill f e p).1
  | PnLOp.posUpdate sy q ap cp => (t.update_position_pnl sy q ap cp).1

/-- A tracker history: the fold of operations from a fresh tracker. -/
def runPnL (initial_capital start_time : ℚ) (ops : List PnLOp) : LivePnLTracker :=
  ops.foldl PnLOp.apply (LivePnLTracker.init initial_capital start_time)

/-! ## Risk manager (risk/risk_manager.py) -/

/-- RiskLevel enum (risk_manager.py). -/
inductive RiskLevel
  | low
  | medium
  | high
  | critical
  deriving DecidableEq

/-- RiskViolation record (risk_manager.py lines 58-84).  Messages are kept
as their static text; the Python code interpolates numbers into them,
which no logic ever reads back. -/
structure RiskViolation where
  level : RiskLevel
  rule : String
  message : String
  deriving DecidableEq

/-- RiskLimits dataclass with its defaults (risk_manager.py lines 25-55). -/
structure RiskLimits where
  max_position_size : ℚ := 10000
  max_position_pct : ℚ := 1/10
  max_leverage : ℚ := 1
  max_portfolio_risk : ℚ := 1/5
  max_drawdown : ℚ := 1/10
  max_daily_loss : ℚ := 1000
  max_daily_loss_pct : ℚ := 1/50
  max_total_exposure : ℚ := 100000
  max_long_exposure : ℚ := 100000
  max_short_exposure : ℚ := 50000
  max_orders_per_second : ℕ := 10
  max_orders_per_minute : ℕ := 100
  use_stop_loss : Bool := true
  default_stop_loss_pct : ℚ := 1/20
  deriving DecidableEq

/-- RiskManager mutable state (risk_manager.py lines 106-135). -/
structure RiskManager where
  limits : RiskLimits := {}
  enable_kill_switch : Bool := true
  kill_switch_active : Bool := false
  violations : List RiskViolation := []
  daily_pnl : ℚ := 0
  peak_equity : ℚ := 0
  current_drawdown : ℚ := 0
  order_timestamps : List ℚ := []
  deriving DecidableEq

/-- RiskManager._check_order_rate (risk_manager.py lines 200-233): prune
timestamps older than one minute, test both rate caps, then append the
current timestamp. -/
def RiskManager.check_order_rate (rm : RiskManager) (now : ℚ) :
    RiskManager × List RiskViolation :=
  let pruned := rm.order_timestamps.filter (fun ts => now - 60 < ts)
  let recent := (pruned.filter (fun ts => now - 1 < ts)).length
  let v1 := if rm.limits.max_orders_per_second ≤ recent then
      [⟨RiskLevel.high, "order_rate_per_second", "Order rate limit exceeded"⟩]
    else []
  let v2 := if rm.limits.max_orders_per_minute ≤ pruned.length then
      [⟨RiskLevel.medium, "order_rate_per_minute", "Order rate limit exceeded"⟩]
    else []
  ({ rm with order_timestamps := pruned ++ [now] }, v1 ++ v2)

/-- RiskManager._check_position_size (risk_manager.py lines 235-267). -/
def RiskManager.check_position_size (rm : RiskManager) (order : Order)
    (account : Account) : List RiskViolation :=
  let estimated_value := order.quantity * (order.price.getD 0)
  if estimated_value = 0 then []
  else
    (if rm.limits.max_position_size < estimated_value then
        [⟨RiskLevel.high, "max_position_size", "Position size exceeds limit"⟩]
      else []) ++
    (if 0 < account.equity then
        (if rm.limits.max_position_pct < estimated_value / account.equity then
          [⟨RiskLevel.high, "max_position_pct", "Position exceeds limit"⟩]
         else [])
      else [])

/-- RiskManager._check_daily_loss (risk_manager.py lines 269-295). -/
def RiskManager.check_daily_loss (rm : RiskManager) (account : Account) :
    List RiskViolation :=
  (if rm.limits.max_daily_loss ≤ |rm.daily_pnl| then
      [⟨RiskLevel.critical, "max_daily_loss", "Daily loss exceeds limit"⟩]
    else []) ++
  (if 0 < account.initial_capital then
      (if rm.limits.max_daily_loss_pct ≤ |rm.daily_pnl| / account.initial_capital then
        [⟨RiskLevel.critical, "max_daily_loss_pct", "Daily loss exceeds limit"⟩]
       else [])
    else [])

/-- RiskManager._check_exposure (risk_manager.py lines 297-338). -/
def RiskManager.check_exposure (rm : RiskManager) (order : Order)
    (account : Account) (positions : List Position) : List RiskViolation :=
  let total_long := ((positions.filter (fun p => 0 < p.quantity)).map
    (fun p => p.market_value)).sum
  let total_short := ((positions.filter (fun p => p.quantity < 0)).map
    (fun p => |p.market_value|)).sum
  let estimated_value := order.quantity * (order.price.getD 0)
  (if order.side = OrderSide.buy then
      (if rm.limits.max_long_exposure < total_long + estimated_value then
        [⟨RiskLevel.high, "max_long_exposure", "Long exposure exceeds limit"⟩]
       else [])
    else
      (if rm.limits.max_short_exposure < total_short + estimated_value then
        [⟨RiskLevel.high, "max_short_exposure", "Short exposure exceeds limit"⟩]
       else [])) ++
  (if rm.limits.max_total_exposure < total_long + total_short + estimated_value then
      [⟨RiskLevel.high, "max_total_exposure", "Total exposure exceeds limit"⟩]
    else [])

/-- RiskManager._check_drawdown (risk_manager.py lines 340-359): updates
peak equity and the current drawdown in place. -/
def RiskManager.check_drawdown (rm : RiskManager) (account : Account) :
    RiskManager × List RiskViolation :=
  let rm := if rm.peak_equity < account.equity
            then { rm with peak_equity := account.equity } else rm
  if 0 < rm.peak_equity then
    let dd := (rm.peak_equity - account.equity) / rm.peak_equity
    let rm := { rm with current_drawdown := dd }
    if rm.limits.max_drawdown ≤ dd then
      (rm, [⟨RiskLevel.critical, "max_drawdown", "Drawdown exceeds limit"⟩])
    else (rm, [])
  else (rm, [])

/-- RiskManager.check_order (risk_manager.py lines 137-198).  The current
wall-clock time is passed explicitly.  When the kill switch is latched
the method returns at once with the single critical violation; otherwise
all five sub-checks run and the order is safe iff no violation is
critical. -/
def RiskManager.check_order (rm : RiskManager) (now : ℚ) (order : Order)
    (account : Account) (positions : List Position) :
    RiskManager × Bool × List RiskViolation :=
  if rm.kill_switch_active then
    (rm, false,
      [⟨RiskLevel.critical, "kill_switch", "Kill switch is active - all trading halted"⟩])
  else
    let r := rm.check_order_rate now
    let rm := r.1
    let vSize := rm.check_position_size order account
    let vLoss := rm.check_daily_loss account
    let vExpo := rm.check_exposure order account positions
    let d := rm.check_drawdown account
    let rm := d.1
    let violations := r.2 ++ vSize ++ vLoss ++ vExpo ++ d.2
    let is_safe :=
      (violations.filter (fun v => v.level = RiskLevel.critical)).length = 0
    (rm, is_safe, violations)

/-- RiskManager.trigger_kill_switch (risk_manager.py lines 376-399). -/
def RiskManager.trigger_kill_switch (rm : RiskManager) (reason : String) :
    RiskManager :=
  if rm.enable_kill_switch = false then rm
  else
    { rm with kill_switch_active := true
              violations := rm.violations ++
                [⟨RiskLevel.critical, "kill_switch",
                  "Kill switch activated: " ++ reason⟩] }

/-- RiskManager.deactivate_kill_switch (risk_manager.py lines 401-404). -/
def RiskManager.deactivate_kill_switch (rm : RiskManager) : RiskManager :=
  { rm with kill_switch_active := false }

/-- One check_order invocation: its wall-clock time and arguments. -/
structure CheckInput where
  now : ℚ
  order : Order
  account : Account
  positions : List Position

/-- Run a sequence of check_order calls, collecting each (safe, violations)
outcome. -/
def RiskManager.run_checks (rm : RiskManager) :
    List CheckInput → RiskManager × List (Bool × List RiskViolation)
  | [] => (rm, [])
  | i :: rest =>
      let r := rm.check_order i.now i.order i.account i.positions
      let tailRes := r.1.run_checks rest
      (tailRes.1, r.2 :: tailRes.2)

/-! ## Paper broker (brokers/paper_broker.py) -/

/-- PaperBroker state (paper_broker.py lines 46-75).  The log1p field
stands for the transcendental x ↦ np.log(1 + x) used by the market
impact model; it is carried as an uninterpreted rational function. -/
structure PaperBroker where
  initial_capital : ℚ := 100000
  commission_rate : ℚ := 1/1000
  slippage_rate : ℚ := 1/2000
  market_impact_rate : ℚ := 1/10000
  cash : ℚ
  connected : Bool := false
  orders : List (String × Order) := []
  positions : List (String × Position) := []
  fills : List Fill := []
  trade_history : List Fill := []
  current_prices : List (String × ℚ) := []
  log1p : ℚ → ℚ

/-- IBroker.validate_order (brokers/base.py lines 350-373), the basic
structural validation the paper broker inherits. -/
def PaperBroker.validate_order (order : Order) : Bool :=
  if order.quantity ≤ 0 then false
  else if order.order_type = OrderType.limit ∧ order.price = none then false
  else if (order.order_type = OrderType.stop ∨
           order.order_type = OrderType.stopLimit) ∧ order.stop_price = none
    then false
  else true

/-- PaperBroker._calculate_fill_price (paper_broker.py lines 185-211). -/
def PaperBroker.calculate_fill_price (br : PaperBroker) (current_price : ℚ)
    (side : OrderSide) (quantity : ℚ) : ℚ :=
  let slippage := current_price * br.slippage_rate
  let market_impact := current_price * br.market_impact_rate *
    br.log1p (quantity / 100)
  if side = OrderSide.buy then current_price + slippage + market_impact
  else current_price - slippage - market_impact

/-- PaperBroker._calculate_commission (paper_broker.py lines 213-224). -/
def PaperBroker.calculate_commission (br : PaperBroker) (quantity price : ℚ) : ℚ :=
  quantity * price * br.commission_rate

/-- PaperBroker._update_position (paper_broker.py lines 271-319). -/
def PaperBroker.update_position (br : PaperBroker) (fill : Fill) : PaperBroker :=
  let symbol := fill.symbol
  match dictGet? br.positions symbol with
  | none =>
      if fill.side = OrderSide.buy then
        let newPos : Position :=
          { symbol := symbol, quantity := fill.quantity
            average_price := fill.price, current_price := fill.price
            market_value := fill.quantity * fill.price
            unrealized_pnl := 0 }
        { br with positions := dictSet br.positions symbol newPos }
      else br
  | some position =>
      if fill.side = OrderSide.buy then
        let total_quantity := position.quantity + fill.quantity
        let position := { position with
          average_price := (position.average_price * position.quantity +
            fill.price * fill.quantity) / total_quantity
          quantity := total_quantity }
        let cp := (dictGet? br.current_prices symbol).getD fill.price
        let position := { position with
          current_price := cp
          market_value := position.quantity * cp
          unrealized_pnl := (cp - position.average_price) * position.quantity }
        { br with positions := dictSet br.positions symbol position }
      else
        let position := { position with quantity := position.quantity - fill.quantity }
        let realized := (fill.price - position.average_price) * fill.quantity -
          fill.commission
        let position := { position with realized_pnl := position.realized_pnl + realized }
        if position.quantity ≤ (0 : ℚ) then
          { br with positions := br.positions.filter (fun p => decide (p.1 ≠ symbol)) }
        else
          let cp := (dictGet? br.current_prices symbol).getD fill.price
          let position := { position with
            current_price := cp
            market_value := position.quantity * cp
            unrealized_pnl := (cp - position.average_price) * position.quantity }
          { br with positions := dictSet br.positions symbol position }

/-- PaperBroker._process_fill (paper_broker.py lines 226-269).  The order
object is shared with the caller, so the mutated order is returned.  The
trade-history dict rows carry exactly the fill fields, so the model
stores the fill itself. -/
def PaperBroker.process_fill (br : PaperBroker) (fill : Fill) (order : Order)
    (now : ℚ) : PaperBroker × Order :=
  let br := { br with fills := br.fills ++ [fill] }
  let order := { order with filled_quantity := order.filled_quantity + fill.quantity }
  let order := { order with average_fill_price :=
    (order.average_fill_price * (order.filled_quantity - fill.quantity) +
      fill.price * fill.quantity) / order.filled_quantity }
  let order := if order.quantity ≤ order.filled_quantity then
      { order with status := OrderStatus.filled, filled_at := some now }
    else { order with status := OrderStatus.partiallyFilled }
  let br := br.update_position fill
  let br := if fill.side = OrderSide.buy then
      { br with cash := br.cash - fill.total_cost }
    else { br with cash := br.cash + (fill.quantity * fill.price - fill.commission) }
  let br := { br with trade_history := br.trade_history ++ [fill] }
  (br, order)

/-- PaperBroker._execute_market_order (paper_broker.py lines 136-183). -/
def PaperBroker.execute_market_order (br : PaperBroker) (order : Order)
    (fill_id : String) (now : ℚ) : PaperBroker × Order :=
  match dictGet? br.current_prices order.symbol with
  | none => (br, { order with status := OrderStatus.rejected })
  | some current_price =>
      let fill_price := br.calculate_fill_price current_price order.side order.quantity
      let commission := br.calculate_commission order.quantity fill_price
      if order.side = OrderSide.buy ∧
          br.cash < order.quantity * fill_price + commission then
        (br, { order with status := OrderStatus.rejected })
      else
        let fill : Fill :=
          { fill_id := fill_id, order_id := order.order_id
            symbol := order.symbol, side := order.side
            quantity := order.quantity, price := fill_price
            commission := commission, timestamp := now }
        br.process_fill fill order now

/-- PaperBroker.place_order (paper_broker.py lines 95-134).  Raising
RuntimeError when disconnected is modelled with Except.error.  The id
draw for an empty order_id and the fill id are passed in.  The returned
Order is the mutated shared object; the returned String is the return
value of the Python method. -/
def PaperBroker.place_order (br : PaperBroker) (order : Order)
    (paper_id fill_id : String) (now : ℚ) :
    Except String (PaperBroker × Order × String) :=
  if br.connected = false then Except.error "Not connected to broker"
  else if PaperBroker.validate_order order = false then
    Except.ok (br, { order with status := OrderStatus.rejected }, order.order_id)
  else
    let order := if order.order_id = "" then { order with order_id := paper_id }
                 else order
    let order := { order with status := OrderStatus.submitted
                              submitted_at := some now }
    let r := if order.order_type = OrderType.market then
        br.execute_market_order order fill_id now
      else (br, { order with status := OrderStatus.pending })
    Except.ok ({ r.1 with orders := dictSet r.1.orders r.2.order_id r.2 },
      r.2, r.2.order_id)

/-- PaperBroker.cancel_order (paper_broker.py lines 321-343): only PENDING
and SUBMITTED orders can be cancelled. -/
def PaperBroker.cancel_order (br : PaperBroker) (order_id : String) :
    PaperBroker × Bool :=
  match dictGet? br.orders order_id with
  | none => (br, false)
  | some order =>
      if order.status = OrderStatus.pending ∨
          order.status = OrderStatus.submitted then
        let cancelled := { order with status := OrderStatus.cancelled }
        ({ br with orders := dictSet br.orders order_id cancelled }, true)
      else (br, false)

/-! ## Order manager (orders/order_manager.py) -/

/-- OrderValidator.validate with the default rules, in order: quantity,
prices, symbol (order_manager.py lines 45-91). -/
def OrderValidator.validate (order : Order) : Bool :=
  if order.quantity ≤ 0 then false
  else if order.order_type = OrderType.limit ∧ order.price = none then false
  else if order.order_type = OrderType.limit ∧ order.price.getD 0 ≤ 0 then false
  else if (order.order_type = OrderType.stop ∨
           order.order_type = OrderType.stopLimit) ∧ order.stop_price = none
    then false
  else if (order.order_type = OrderType.stop ∨
           order.order_type = OrderType.stopLimit) ∧ order.stop_price.getD 0 ≤ 0
    then false
  else if order.symbol = "" then false
  else true

/-- OrderManager statistics dict (order_manager.py lines 148-154). -/
structure OMStats where
  orders_submitted : ℕ := 0
  orders_filled : ℕ := 0
  orders_cancelled : ℕ := 0
  orders_rejected : ℕ := 0
  total_fills : ℕ := 0
  deriving DecidableEq

/-- OrderManager mutable state (order_manager.py lines 114-156). -/
structure OrderManagerState where
  orders : List (String × Order) := []
  fills : List Fill := []
  pending_orders : List String := []
  stats : OMStats := {}
  enable_validation : Bool := true
  deriving DecidableEq

/-- The order manager together with the paper broker it routes to.  In
Python an Order is one shared object in both the manager dict and the
broker dict; here every mutation is threaded to both sides explicitly. -/
structure OMS where
  broker : PaperBroker
  om : OrderManagerState

/-- Which callback list a submit fired (order_manager.py). -/
inductive CallbackFired
  | order_submitted
  | order_rejected
  deriving DecidableEq

/-- OrderManager.submit_order (order_manager.py lines 158-214): assign an
id if missing, validate, route to the broker, then record the outcome.
A truthy (non-empty) broker return value counts as acceptance. -/
def OMS.submit_order (s : OMS) (order : Order)
    (oms_id paper_id fill_id : String) (now : ℚ) :
    OMS × Option String × CallbackFired :=
  let order := if order.order_id = "" then { order with order_id := oms_id }
               else order
  if s.om.enable_validation = true ∧ OrderValidator.validate order = false then
    let order := { order with status := OrderStatus.rejected }
    ({ s with om := { s.om with
        orders := dictSet s.om.orders order.order_id order
        stats := { s.om.stats with
          orders_rejected := s.om.stats.orders_rejected + 1 } } },
     none, CallbackFired.order_rejected)
  else
    match s.broker.place_order order paper_id fill_id now with
    | Except.error _ =>
        let order := { order with status := OrderStatus.rejected }
        ({ s with om := { s.om with
            orders := dictSet s.om.orders order.order_id order
            stats := { s.om.stats with
              orders_rejected := s.om.stats.orders_rejected + 1 } } },
         none, CallbackFired.order_rejected)
    | Except.ok (br, placed, broker_order_id) =>
        if broker_order_id ≠ "" then
          let om := { s.om with
            orders := dictSet s.om.orders order.order_id placed }
          let om := if placed.is_open then
              { om with pending_orders := om.pending_orders ++ [order.order_id] }
            else om
          let om := { om with stats := { om.stats with
            orders_submitted := om.stats.orders_submitted + 1 } }
          ({ broker := br, om := om }, some order.order_id,
           CallbackFired.order_submitted)
        else
          let placed := { placed with status := OrderStatus.rejected }
          ({ broker := br, om := { s.om with
              orders := dictSet s.om.orders order.order_id placed
              stats := { s.om.stats with
                orders_rejected := s.om.stats.orders_rejected + 1 } } },
           none, CallbackFired.order_rejected)

/-- OrderManager.cancel_order (order_manager.py lines 216-262): refuse if
untracked or not open, otherwise ask the broker and, on success, mark
cancelled and drop from the pending list. -/
def OMS.cancel_order (s : OMS) (order_id : String) : OMS × Bool :=
  match dictGet? s.om.orders order_id with
  | none => (s, false)
  | some order =>
      if order.is_open = false then (s, false)
      else
        let r := s.broker.cancel_order order_id
        if r.2 = true then
          let om := { s.om with
            orders := dictSet s.om.orders order_id
              { order with status := OrderStatus.cancelled }
            pending_orders := s.om.pending_orders.erase order_id
            stats := { s.om.stats with
              orders_cancelled := s.om.stats.orders_cancelled + 1 } }
          ({ broker := r.1, om := om }, true)
        else ({ broker := r.1, om := s.om }, false)

/-- OrderManager.process_fill (order_manager.py lines 264-309). -/
def OMS.process_fill (s : OMS) (fill : Fill) : OMS :=
  let om := { s.om with
    fills := s.om.fills ++ [fill]
    stats := { s.om.stats with total_fills := s.om.stats.total_fills + 1 } }
  match dictGet? om.orders fill.order_id with
  | none => { s with om := om }
  | some order =>
      let order := { order with
        filled_quantity := order.filled_quantity + fill.quantity }
      let order := if (0 : ℚ) < order.filled_quantity then
          { order with average_fill_price :=
            (order.average_fill_price * (order.filled_quantity - fill.quantity) +
              fill.price * fill.quantity) / order.filled_quantity }
        else order
      if order.quantity ≤ order.filled_quantity then
        let order := { order with status := OrderStatus.filled
                                  filled_at := some fill.timestamp }
        { s with om := { om with
            orders := dictSet om.orders fill.order_id order
            pending_orders := om.pending_orders.erase fill.order_id
            stats := { om.stats with
              orders_filled := om.stats.orders_filled + 1 } } }
      else
        let order := { order with status := OrderStatus.partiallyFilled }
        { s with om := { om with
            orders := dictSet om.orders fill.order_id order } }

/-- Apply a sequence of fills through OrderManager.process_fill. -/
def OMS.runFills (s : OMS) (fs : List Fill) : OMS := fs.foldl OMS.process_fill s

/-! ## Engine signal handling (live_engine.py) -/

/-- Modelled from the spec: the Action enum of strategies/base.py is not
in the source tree; spec section 6 gives signal action ∈ {Buy, Sell}. -/
inductive Action
  | buy
  | sell
  deriving DecidableEq

/-- Signal payload fields read by the engine (live_engine.py lines
415-438 and the strategy interface of spec section 6). -/
structure SignalData where
  action : Action
  symbol : String
  quantity : ℚ
  price : Option ℚ := none
  deriving DecidableEq

/-- EngineState enum (live_engine.py lines 24-32). -/
inductive EngineState
  | created
  | starting
  | running
  | paused
  | stopping
  | stopped
  | error
  deriving DecidableEq

/-- The engine fields read and written by the signal handler
(live_engine.py lines 90-101). -/
structure Engine where
  state : EngineState
  dry_run : Bool := false
  signals_received : ℕ := 0
  deriving DecidableEq

/-- LiveExecutionEngine._signal_to_order (live_engine.py lines 415-438).
A Python dict .get is truthy only for a present non-zero price, so the
order type is LIMIT exactly when the price field holds a non-zero value. -/
def Engine.signal_to_order (sd : SignalData) : Order :=
  { order_id := ""
    symbol := sd.symbol
    side := if sd.action = Action.buy then OrderSide.buy else OrderSide.sell
    order_type := if sd.price.getD 0 ≠ 0 then OrderType.limit
                  else OrderType.market
    quantity := sd.quantity
    price := sd.price }

/-- Which branch of the signal handler ran: dropped because the engine is
not RUNNING, logged only (dry-run), or handed to
OrderManager.submit_order. -/
inductive SignalOutcome
  | dropped
  | dryRunLogged (o : Order)
  | submittedToOM (o : Order)
  deriving DecidableEq

/-- LiveExecutionEngine._on_signal (live_engine.py lines 351-375).  Note
the state test precedes the counter increment. -/
def Engine.on_signal (e : Engine) (sd : SignalData) : Engine × SignalOutcome :=
  if e.state ≠ EngineState.running then (e, SignalOutcome.dropped)
  else
    let e := { e with signals_received := e.signals_received + 1 }
    let order := Engine.signal_to_order sd
    if e.dry_run then (e, SignalOutcome.dryRunLogged order)
    else (e, SignalOutcome.submittedToOM order)

/-! ## Position synchronizer (position_sync.py) -/

/-- DiscrepancyType enum (position_sync.py lines 18-23). -/
inductive DiscrepancyType
  | missingLocal
  | missingBroker
  | quantityMismatch
  | priceMismatch
  deriving DecidableEq

/-- PositionDiscrepancy dataclass (position_sync.py lines 26-36); the
type field is named dtype here because type is reserved. -/
structure PositionDiscrepancy where
  symbol : String
  dtype : DiscrepancyType
  local_quantity : ℚ
  broker_quantity : ℚ
  local_price : Option ℚ := none
  broker_price : Option ℚ := none
  resolved : Bool := false
  deriving DecidableEq

/-- ReconciliationReport dataclass (position_sync.py lines 39-62). -/
structure ReconciliationReport where
  total_positions_local : ℕ
  total_positions_broker : ℕ
  discrepancies : List PositionDiscrepancy
  synced : Bool
  deriving DecidableEq

/-- First detection loop of sync_positions, over the local positions
(position_sync.py lines 130-169). -/
def localDiscrepancies (broker_dict : List (String × Position))
    (local_prices : Option (List (String × ℚ))) (tolerance : ℚ) :
    List (String × ℚ) → List PositionDiscrepancy
  | [] => []
  | (symbol, quantity) :: rest =>
      (if quantity = 0 then []
       else
         match dictGet? broker_dict symbol with
         | none =>
             [{ symbol := symbol, dtype := DiscrepancyType.missingBroker
                local_quantity := quantity, broker_quantity := 0 }]
         | some broker_pos =>
             (if 1/1000 < |broker_pos.quantity - quantity| then
                [{ symbol := symbol, dtype := DiscrepancyType.quantityMismatch
                   local_quantity := quantity
                   broker_quantity := broker_pos.quantity
                   local_price := match local_prices with
                     | some lp => dictGet? lp symbol
                     | none => none
                   broker_price := some broker_pos.average_price }]
              else []) ++
             (match local_prices with
              | some lp =>
                  match dictGet? lp symbol with
                  | some local_price =>
                      if tolerance <
                          |broker_pos.average_price - local_price| /
                            broker_pos.average_price then
                        [{ symbol := symbol
                           dtype := DiscrepancyType.priceMismatch
                           local_quantity := quantity
                           broker_quantity := broker_pos.quantity
                           local_price := some local_price
                           broker_price := some broker_pos.average_price }]
                      else []
                  | none => []
              | none => [])) ++
      localDiscrepancies broker_dict local_prices tolerance rest

/-- Second detection loop of sync_positions, over the broker positions
(position_sync.py lines 171-183). -/
def brokerDiscrepancies (local_positions : List (String × ℚ)) :
    List (String × Position) → List PositionDiscrepancy
  | [] => []
  | (symbol, broker_pos) :: rest =>
      (if broker_pos.quantity = 0 then []
       else if dictMem local_positions symbol = false ∨
           dictGet? local_positions symbol = some 0 then
         [{ symbol := symbol, dtype := DiscrepancyType.missingLocal
            local_quantity := 0, broker_quantity := broker_pos.quantity
            broker_price := some broker_pos.average_price }]
       else []) ++
      brokerDiscrepancies local_positions rest

/-- One step of PositionSynchronizer._reconcile_discrepancies
(position_sync.py lines 235-257): the auto-reconcile policy for a single
discrepancy. -/
def reconcileOne (local_positions : List (String × ℚ))
    (d : PositionDiscrepancy) : List (String × ℚ) × PositionDiscrepancy :=
  match d.dtype with
  | DiscrepancyType.missingLocal =>
      (dictSet local_positions d.symbol d.broker_quantity,
       { d with resolved := true })
  | DiscrepancyType.missingBroker =>
      (dictSet local_positions d.symbol 0, { d with resolved := true })
  | DiscrepancyType.quantityMismatch =>
      (dictSet local_positions d.symbol d.broker_quantity,
       { d with resolved := true })
  | DiscrepancyType.priceMismatch => (local_positions, d)

/-- PositionSynchronizer._reconcile_discrepancies (position_sync.py lines
221-260): fold the policy over the discrepancy list, mutating the local
position dict and the discrepancy records. -/
def reconcileDiscrepancies (local_positions : List (String × ℚ)) :
    List PositionDiscrepancy → List (String × ℚ) × List PositionDiscrepancy
  | [] => (local_positions, [])
  | d :: rest =>
      let r := reconcileOne local_positions d
      let t := reconcileDiscrepancies r.1 rest
      (t.1, r.2 :: t.2)

/-- Result of one sync_positions call: the (possibly reconciled) local
position dict and the report. -/
structure SyncResult where
  local_positions : List (String × ℚ)
  report : ReconciliationReport
  deriving DecidableEq

/-- PositionSynchronizer.sync_positions (position_sync.py lines 104-211).
The report is built before reconciliation but holds references to the
discrepancy records that reconciliation mutates, so it shows the final
resolved flags.  Sync counters and report history are logging-side
bookkeeping and are not part of the model. -/
def sync_positions (auto_reconcile : Bool) (tolerance : ℚ)
    (broker_positions : List Position) (local_positions : List (String × ℚ))
    (local_prices : Option (List (String × ℚ))) : SyncResult :=
  let broker_dict := broker_positions.foldl (fun d p => dictSet d p.symbol p) []
  let discrepancies :=
    localDiscrepancies broker_dict local_prices tolerance local_positions ++
    brokerDiscrepancies local_positions broker_dict
  let synced := discrepancies.length = 0
  let r := if auto_reconcile = true ∧ ¬ synced then
      reconcileDiscrepancies local_positions discrepancies
    else (local_positions, discrepancies)
  { local_positions := r.1
    report :=
      { total_positions_local :=
          (local_positions.filter (fun p => decide (p.2 ≠ 0))).length
        total_positions_broker :=
          (broker_positions.filter (fun p => decide (p.quantity ≠ 0))).length
        discrepancies := r.2
        synced := synced } }

/-! ## Helper lemmas -/

theorem dictGet?_dictSet_self {κ α : Type} [DecidableEq κ]
    (d : List (κ × α)) (k : κ) (v : α) : dictGet? (dictSet d k v) k = some v := by
  induction d with
  | nil => simp [dictSet, dictGet?]
  | cons hd tl ih =>
      by_cases h : hd.1 = k
      · simp [dictSet, dictGet?, h]
      · simpa [dictSet, dictGet?, h] using ih

/-! ## Claim C5 -/

/-- Scenario S6: a fresh tracker with initial capital 100000. -/
def s6_tracker : LivePnLTracker := LivePnLTracker.init 100000 0

/-- First S6 trade: AAPL long, entry 150, exit 155, qty 10, commission 2. -/
def s6_first : LivePnLTracker × TradeRecord :=
  s6_tracker.record_trade "AAPL" 0 3600 150 155 10 "long" 2

/-- Second S6 trade: MSFT long, entry 300, exit 295, qty 5, commission 1.5. -/
def s6_second : LivePnLTracker × TradeRecord :=
  s6_first.1.record_trade "MSFT" 0 3600 300 295 5 "long" (3/2)

/-- C5: recording the two S6 trades on a tracker with initial capital
100000 yields trade net P&Ls 48 and -26.5, realized P&L 21.5, two
recorded trades of which one wins and one loses, and total equity
100021.5. -/
theorem round_trip_pnl_s6 :
    s6_first.2.net_pnl = 48 ∧
    s6_second.2.net_pnl = -(53/2) ∧
    s6_second.1.realized_pnl = 43/2 ∧
    s6_second.1.trades.length = 2 ∧
    (s6_second.1.trades.filter (fun tr => decide (0 < tr.net_pnl))).length = 1 ∧
    (s6_second.1.trades.filter (fun tr => decide (tr.net_pnl < 0))).length = 1 ∧
    s6_second.1.get_total_equity = 100000 + 43/2 := by
  norm_num [s6_second, s6_first, s6_tracker, LivePnLTracker.record_trade,
    LivePnLTracker.init, LivePnLTracker.get_total_equity,
    LivePnLTracker.get_total_pnl, LivePnLTracker.get_unrealized_pnl,
    dateOf, dictGet?, dictSet, List.filter]

/-! ## Claim C4 -/

/-- A one-step history: a mark-to-market update puts a 3000 unrealized
loss on a 100000-capital tracker, so equity is 97000 against peak 100000. -/
def c4_history : LivePnLTracker :=
  runPnL 100000 0 [PnLOp.posUpdate "A" 10 400 100]

/-- C4 counterexample: on this history get_current_drawdown returns 3,
which differs from the claimed fraction (peak - equity)/peak = 3/100 and
lies outside [0, 1]: the code returns a percentage. -/
theorem drawdown_not_fraction :
    c4_history.get_current_drawdown ≠
      (c4_history.peak_equity - c4_history.get_total_equity) /
        c4_history.peak_equity ∧
    ¬ c4_history.get_current_drawdown ≤ 1 := by
  norm_num [c4_history, runPnL, PnLOp.apply, LivePnLTracker.update_position_pnl,
    LivePnLTracker.init, LivePnLTracker.get_current_drawdown,
    LivePnLTracker.get_total_equity, LivePnLTracker.get_total_pnl,
    LivePnLTracker.get_unrealized_pnl, dictSet]

/-- C4 amended: at every point in a LivePnLTracker history,
get_current_drawdown() equals (peak_equity - current_equity) /
peak_equity x 100 (a percentage, not a fraction), is zero when
peak_equity is zero, and lies in [0, 100] whenever current equity is
between zero and peak equity. -/
theorem drawdown_formula (initial_capital start_time : ℚ) (ops : List PnLOp)
    (t : LivePnLTracker) (ht : t = runPnL initial_capital start_time ops) :
    (t.peak_equity = 0 → t.get_current_drawdown = 0) ∧
    (t.peak_equity ≠ 0 →
      t.get_current_drawdown =
        (t.peak_equity - t.get_total_equity) / t.peak_equity * 100) ∧
    (0 ≤ t.get_total_equity → t.get_total_equity ≤ t.peak_equity →
      0 ≤ t.get_current_drawdown ∧ t.get_current_drawdown ≤ 100) := by
  subst ht
  set t := runPnL initial_capital start_time ops with ht
  unfold LivePnLTracker.get_current_drawdown
  refine ⟨fun h => by simp [h], fun h => by simp [h], fun h1 h2 => ?_⟩
  by_cases hp : t.peak_equity = 0
  · simp [hp]
  · have hp0 : 0 < t.peak_equity := lt_of_le_of_ne (h1.trans h2) (Ne.symm hp)
    rw [if_neg hp]
    constructor
    · have hnum : 0 ≤ t.peak_equity - t.get_total_equity := by linarith
      have hq := div_nonneg hnum (le_of_lt hp0)
      nlinarith
    · have hdiv : (t.peak_equity - t.get_total_equity) / t.peak_equity ≤ 1 :=
        (div_le_one hp0).2 (by linarith)
      nlinarith

/-- Witness for C4 amended: the empty history on capital 100000 has
nonzero peak equity, so the drawdown equals the percentage formula. -/
theorem drawdown_formula_witness :
    (runPnL 100000 0 []).get_current_drawdown =
      ((runPnL 100000 0 []).peak_equity -
        (runPnL 100000 0 []).get_total_equity) /
        (runPnL 100000 0 []).peak_equity * 100 :=
  (drawdown_formula 100000 0 [] (runPnL 100000 0 []) rfl).2.1
    (by norm_num [runPnL, LivePnLTracker.init])

/-! ## Claim C10 -/

theorem record_trade_total_commission (t : LivePnLTracker) (sy : String)
    (et xt ep xp q : ℚ) (sd : String) (c : ℚ) :
    (t.record_trade sy et xt ep xp q sd c).1.total_commission =
      t.total_commission + c := by
  simp only [LivePnLTracker.record_trade,
    apply_ite LivePnLTracker.total_commission, ite_self]

theorem record_trade_realized (t : LivePnLTracker) (sy : String)
    (et xt ep xp q : ℚ) (sd : String) (c : ℚ) :
    (t.record_trade sy et xt ep xp q sd c).1.realized_pnl =
      t.realized_pnl +
        ((if sd = "long" then (xp - ep) * q else (ep - xp) * q) - c) := by
  simp only [LivePnLTracker.record_trade,
    apply_ite LivePnLTracker.realized_pnl, ite_self]

/-- C10: record_fill on an exit with a given entry price adds the fill
commission to total_commission twice (once directly, once inside the
record_trade it calls) while realized P&L subtracts it only once. -/
theorem record_fill_double_commission (t : LivePnLTracker) (fill : Fill)
    (p : ℚ) :
    ((t.record_fill fill false (some p)).1.total_commission =
      t.total_commission + 2 * fill.commission) ∧
    ((t.record_fill fill false (some p)).1.realized_pnl =
      t.realized_pnl +
        ((if fill.side = OrderSide.sell then (fill.price - p) * fill.quantity
          else (p - fill.price) * fill.quantity) - fill.commission)) := by
  unfold LivePnLTracker.record_fill
  constructor
  · simp [record_trade_total_commission]
    ring
  · by_cases hs : fill.side = OrderSide.sell <;>
      simp [hs, record_trade_realized]

/-! ## Claim C9 -/

/-- The three paper-broker rejection cases of claim C9: failed basic
validation, a market order with no known price, or a market buy whose
total cost exceeds available cash. -/
def paperRejectReason (br : PaperBroker) (order : Order) : Prop :=
  PaperBroker.validate_order order = false ∨
  (order.order_type = OrderType.market ∧
    dictGet? br.current_prices order.symbol = none) ∨
  (order.order_type = OrderType.market ∧ order.side = OrderSide.buy ∧
    ∃ p, dictGet? br.current_prices order.symbol = some p ∧
      br.cash < order.quantity *
          br.calculate_fill_price p order.side order.quantity +
        br.calculate_commission order.quantity
          (br.calculate_fill_price p order.side order.quantity))

/-- PaperBroker.place_order returns the order identity even when it
rejects the order, setting only the status to Rejected. -/
theorem place_order_on_reject (br : PaperBroker) (order : Order)
    (paper_id fill_id : String) (now : ℚ)
    (hconn : br.connected = true) (hid : order.order_id ≠ "")
    (hrej : paperRejectReason br order) :
    ∃ br' o', br.place_order order paper_id fill_id now =
        Except.ok (br', o', order.order_id) ∧
      o'.status = OrderStatus.rejected ∧ o'.order_id = order.order_id := by
  unfold PaperBroker.place_order
  rw [if_neg (by simp [hconn])]
  by_cases hv : PaperBroker.validate_order order = false
  · rw [if_pos hv]
    exact ⟨br, _, rfl, rfl, rfl⟩
  · rw [if_neg hv]
    rcases hrej with h | ⟨hmk, hnone⟩ | ⟨hmk, hbuy, p, hp, hcash⟩
    · exact absurd h hv
    · simp only [if_neg hid, hmk, if_true, ite_true,
        PaperBroker.execute_market_order, hnone]
      exact ⟨_, _, rfl, rfl, rfl⟩
    · simp only [if_neg hid, hmk, ite_true, PaperBroker.execute_market_order, hp]
      rw [if_pos (by exact ⟨hbuy, hcash⟩)]
      exact ⟨_, _, rfl, rfl, rfl⟩

/-- C9: when the paper broker rejects an order that carries a non-empty
identity (for any of the three reasons), place_order still returns that
identity, so OrderManager.submit_order treats it as accepted: it returns
the identity, fires order_submitted rather than order_rejected,
increments orders_submitted, stores the order as Rejected, and does not
add it to the pending set. -/
theorem broker_rejection_counted_as_submitted (s : OMS) (order : Order)
    (oms_id paper_id fill_id : String) (now : ℚ)
    (hid : order.order_id ≠ "")
    (hconn : s.broker.connected = true)
    (hval : OrderValidator.validate order = true)
    (hrej : paperRejectReason s.broker order) :
    (s.submit_order order oms_id paper_id fill_id now).2.1 =
      some order.order_id ∧
    (s.submit_order order oms_id paper_id fill_id now).2.2 =
      CallbackFired.order_submitted ∧
    (s.submit_order order oms_id paper_id fill_id now).1.om.stats.orders_submitted =
      s.om.stats.orders_submitted + 1 ∧
    (∃ o', dictGet? (s.submit_order order oms_id paper_id fill_id now).1.om.orders
        order.order_id = some o' ∧ o'.status = OrderStatus.rejected) ∧
    (s.submit_order order oms_id paper_id fill_id now).1.om.pending_orders =
      s.om.pending_orders := by
  obtain ⟨br', o', hplace, host, hoid⟩ :=
    place_order_on_reject s.broker order paper_id fill_id now hconn hid hrej
  have hopen : o'.is_open = false := by simp [Order.is_open, host]
  unfold OMS.submit_order
  rw [if_neg hid]
  rw [if_neg (show ¬ (s.om.enable_validation = true ∧
    OrderValidator.validate order = false) by simp [hval])]
  rw [hplace]
  simp only [ne_eq, hid, not_false_eq_true, if_pos, ite_true, if_neg,
    hopen, Bool.false_eq_true, ite_false]
  refine ⟨trivial, trivial, trivial, ⟨o', dictGet?_dictSet_self _ _ _, host⟩, trivial⟩

def c9_order : Order :=
  { order_id := "x1", symbol := "AAPL", side := OrderSide.buy
    order_type := OrderType.market, quantity := 1 }

def c9_oms : OMS :=
  { broker := { cash := 100000, connected := true, log1p := fun _ => 0 }
    om := {} }

/-- Witness for C9: a market buy for a symbol with no known price. -/
theorem broker_rejection_counted_as_submitted_witness :
    (c9_oms.submit_order c9_order "g1" "g2" "g3" 0).2.1 =
      some c9_order.order_id ∧
    (c9_oms.submit_order c9_order "g1" "g2" "g3" 0).2.2 =
      CallbackFired.order_submitted ∧
    (c9_oms.submit_order c9_order "g1" "g2" "g3" 0).1.om.stats.orders_submitted =
      c9_oms.om.stats.orders_submitted + 1 ∧
    (∃ o', dictGet? (c9_oms.submit_order c9_order "g1" "g2" "g3" 0).1.om.orders
        c9_order.order_id = some o' ∧ o'.status = OrderStatus.rejected) ∧
    (c9_oms.submit_order c9_order "g1" "g2" "g3" 0).1.om.pending_orders =
      c9_oms.om.pending_orders :=
  broker_rejection_counted_as_submitted c9_oms c9_order "g1" "g2" "g3" 0
    (by simp [c9_order]) rfl
    (by have h : ¬ (1:ℚ) ≤ 0 := by norm_num
        simp [OrderValidator.validate, c9_order, h])
    (Or.inr (Or.inl ⟨rfl, rfl⟩))

/-! ## Claim C6 -/

/-- C6 amended: for an order tracked by both the order manager and the
paper broker (with consistent status), cancel_order succeeds and marks
the order Cancelled exactly when the status is Pending or Submitted; in
every other status - including PartiallyFilled, which the paper broker
refuses - it returns false and leaves the status unchanged. -/
theorem cancel_order_open_statuses (s : OMS) (oid : String) (o ob : Order)
    (hom : dictGet? s.om.orders oid = some o)
    (hbr : dictGet? s.broker.orders oid = some ob)
    (hst : ob.status = o.status) :
    ((s.cancel_order oid).2 = true ↔
      o.status = OrderStatus.pending ∨ o.status = OrderStatus.submitted) ∧
    ((s.cancel_order oid).2 = true →
      ∃ o', dictGet? (s.cancel_order oid).1.om.orders oid = some o' ∧
        o'.status = OrderStatus.cancelled) ∧
    ((s.cancel_order oid).2 = false →
      dictGet? (s.cancel_order oid).1.om.orders oid = some o) := by
  unfold OMS.cancel_order PaperBroker.cancel_order
  simp only [hom, hbr, hst]
  cases hos : o.status <;>
    simp [Order.is_open, hos, dictGet?_dictSet_self, hom]

/-- A partially filled tracked order. -/
def c6_order : Order :=
  { order_id := "o1", symbol := "AAPL", side := OrderSide.buy
    order_type := OrderType.limit, quantity := 10, price := some 100
    status := OrderStatus.partiallyFilled, filled_quantity := 4
    average_fill_price := 100 }

/-- Manager and paper broker both tracking the partially filled order. -/
def c6_oms : OMS :=
  { broker := { cash := 100000, connected := true
                orders := [("o1", c6_order)], log1p := fun _ => 0 }
    om := { orders := [("o1", c6_order)], pending_orders := ["o1"] } }

/-- C6 counterexample: cancelling a PartiallyFilled order returns false
and leaves it PartiallyFilled, because PaperBroker.cancel_order only
accepts PENDING and SUBMITTED, although the claim says cancellation
succeeds for PartiallyFilled too. -/
theorem cancel_partially_filled_fails :
    (c6_oms.cancel_order "o1").2 = false ∧
    ((dictGet? (c6_oms.cancel_order "o1").1.om.orders "o1").map
      (fun o => o.status)) = some OrderStatus.partiallyFilled := by
  simp [c6_oms, c6_order, OMS.cancel_order, PaperBroker.cancel_order,
    Order.is_open, dictGet?]

/-- Witness for C6 amended, instantiated on the partially filled order. -/
theorem cancel_order_open_statuses_witness :
    ((c6_oms.cancel_order "o1").2 = true ↔
      c6_order.status = OrderStatus.pending ∨
        c6_order.status = OrderStatus.submitted) ∧
    (((c6_oms.cancel_order "o1")).2 = true →
      ∃ o', dictGet? (c6_oms.cancel_order "o1").1.om.orders "o1" = some o' ∧
        o'.status = OrderStatus.cancelled) ∧
    (((c6_oms.cancel_order "o1")).2 = false →
      dictGet? (c6_oms.cancel_order "o1").1.om.orders "o1" = some c6_order) :=
  cancel_order_open_statuses c6_oms "o1" c6_order c6_order
    (by simp [c6_oms, dictGet?]) (by simp [c6_oms, dictGet?]) rfl

/-! ## Claim C2 -/

/-- The critical violation check_order emits while the kill switch is
latched (risk_manager.py lines 157-163). -/
def killViolation : RiskViolation :=
  ⟨RiskLevel.critical, "kill_switch", "Kill switch is active - all trading halted"⟩

theorem check_order_active (rm : RiskManager) (now : ℚ) (order : Order)
    (account : Account) (positions : List Position)
    (h : rm.kill_switch_active = true) :
    rm.check_order now order account positions = (rm, false, [killViolation]) := by
  unfold RiskManager.check_order
  rw [if_pos h]
  rfl

theorem run_checks_active (rm : RiskManager) (inputs : List CheckInput)
    (h : rm.kill_switch_active = true) :
    rm.run_checks inputs = (rm, inputs.map fun _ => (false, [killViolation])) := by
  induction inputs with
  | nil => rfl
  | cons i rest ih =>
      simp only [RiskManager.run_checks,
        check_order_active rm i.now i.order i.account i.positions h, ih,
        List.map_cons]

theorem rate_critical_free (rm : RiskManager) (now : ℚ) :
    List.filter (fun v => decide (v.level = RiskLevel.critical))
      (rm.check_order_rate now).2 = [] := by
  simp only [RiskManager.check_order_rate]
  split_ifs <;> rfl

theorem size_critical_free (rm : RiskManager) (order : Order) (account : Account) :
    List.filter (fun v => decide (v.level = RiskLevel.critical))
      (rm.check_position_size order account) = [] := by
  simp only [RiskManager.check_position_size]
  split_ifs <;> rfl

theorem exposure_critical_free (rm : RiskManager) (order : Order)
    (account : Account) (positions : List Position) :
    List.filter (fun v => decide (v.level = RiskLevel.critical))
      (rm.check_exposure order account positions) = [] := by
  simp only [RiskManager.check_exposure]
  split_ifs <;> rfl

theorem daily_loss_empty (rm : RiskManager) (account : Account)
    (hd1 : ¬ rm.limits.max_daily_loss ≤ |rm.daily_pnl|)
    (hd2 : ¬ (0 < account.initial_capital ∧
      rm.limits.max_daily_loss_pct ≤ |rm.daily_pnl| / account.initial_capital)) :
    rm.check_daily_loss account = [] := by
  simp only [RiskManager.check_daily_loss]
  rw [if_neg hd1]
  split_ifs with h1 h2
  · exact absurd ⟨h1, h2⟩ hd2
  · rfl
  · rfl

theorem drawdown_check_empty (rm : RiskManager) (account : Account)
    (hd3 : ¬ (0 < (if rm.peak_equity < account.equity then account.equity
          else rm.peak_equity) ∧
      rm.limits.max_drawdown ≤
        ((if rm.peak_equity < account.equity then account.equity
          else rm.peak_equity) - account.equity) /
          (if rm.peak_equity < account.equity then account.equity
          else rm.peak_equity))) :
    (rm.check_drawdown account).2 = [] := by
  simp only [RiskManager.check_drawdown]
  split_ifs at hd3 ⊢ with h1 h2 h3
  all_goals first
    | rfl
    | (exact absurd ⟨by assumption, by assumption⟩ hd3)

theorem check_order_safe (rm : RiskManager) (now : ℚ) (order : Order)
    (account : Account) (positions : List Position)
    (hks : rm.kill_switch_active = false)
    (hd1 : ¬ rm.limits.max_daily_loss ≤ |rm.daily_pnl|)
    (hd2 : ¬ (0 < account.initial_capital ∧
      rm.limits.max_daily_loss_pct ≤ |rm.daily_pnl| / account.initial_capital))
    (hd3 : ¬ (0 < (if rm.peak_equity < account.equity then account.equity
          else rm.peak_equity) ∧
      rm.limits.max_drawdown ≤
        ((if rm.peak_equity < account.equity then account.equity
          else rm.peak_equity) - account.equity) /
          (if rm.peak_equity < account.equity then account.equity
          else rm.peak_equity))) :
    (rm.check_order now order account positions).2.1 = true := by
  have hdl : (rm.check_order_rate now).1.check_daily_loss account = [] :=
    daily_loss_empty _ _ hd1 hd2
  have hdd : ((rm.check_order_rate now).1.check_drawdown account).2 = [] :=
    drawdown_check_empty _ _ hd3
  unfold RiskManager.check_order
  rw [if_neg (by simp [hks])]
  simp only [List.filter_append, rate_critical_free, size_critical_free,
    exposure_critical_free, hdl, hdd, List.filter_nil, List.nil_append,
    List.append_nil, List.length_nil, decide_eq_true_eq]

/-- C2: once trigger_kill_switch fires (with the kill switch enabled),
every subsequent check_order returns not-safe with the critical
kill_switch violation and the latch stays set, until
deactivate_kill_switch; after deactivation a check whose inputs violate
no other critical rule (daily loss, daily loss percent, drawdown) is
reported safe again. -/
theorem kill_switch_latches (rm : RiskManager) (reason : String)
    (inputs : List CheckInput) (i : CheckInput)
    (henable : rm.enable_kill_switch = true)
    (hd1 : ¬ rm.limits.max_daily_loss ≤ |rm.daily_pnl|)
    (hd2 : ¬ (0 < i.account.initial_capital ∧
      rm.limits.max_daily_loss_pct ≤ |rm.daily_pnl| / i.account.initial_capital))
    (hd3 : ¬ (0 < (if rm.peak_equity < i.account.equity then i.account.equity
          else rm.peak_equity) ∧
      rm.limits.max_drawdown ≤
        ((if rm.peak_equity < i.account.equity then i.account.equity
          else rm.peak_equity) - i.account.equity) /
          (if rm.peak_equity < i.account.equity then i.account.equity
          else rm.peak_equity))) :
    ((rm.trigger_kill_switch reason).run_checks inputs =
      (rm.trigger_kill_switch reason,
        inputs.map fun _ => (false, [killViolation]))) ∧
    (rm.trigger_kill_switch reason).kill_switch_active = true ∧
    (((rm.trigger_kill_switch reason).deactivate_kill_switch).check_order
        i.now i.order i.account i.positions).2.1 = true := by
  have htr : rm.trigger_kill_switch reason =
      { rm with kill_switch_active := true
                violations := rm.violations ++
                  [⟨RiskLevel.critical, "kill_switch",
                    "Kill switch activated: " ++ reason⟩] } := by
    unfold RiskManager.trigger_kill_switch
    rw [if_neg (by simp [henable])]
  have hact : (rm.trigger_kill_switch reason).kill_switch_active = true := by
    rw [htr]
  refine ⟨run_checks_active _ _ hact, hact, ?_⟩
  rw [htr]
  exact check_order_safe _ i.now i.order i.account i.positions rfl hd1 hd2 hd3

def c2_rm : RiskManager := {}

def c2_order : Order :=
  { order_id := "o1", symbol := "AAPL", side := OrderSide.buy
    order_type := OrderType.market, quantity := 1 }

def c2_account : Account :=
  { account_id := "a", cash := 100000, equity := 100000
    buying_power := 100000, positions_value := 0, unrealized_pnl := 0
    realized_pnl := 0, initial_capital := 100000 }

def c2_input : CheckInput :=
  { now := 0, order := c2_order, account := c2_account, positions := [] }

/-- Witness for C2: a default-limits risk manager, kill switch triggered
with reason manual, one check while latched, then a safe check after
deactivation. -/
theorem kill_switch_latches_witness :
    ((c2_rm.trigger_kill_switch "manual").run_checks [c2_input] =
      (c2_rm.trigger_kill_switch "manual", [(false, [killViolation])])) ∧
    (c2_rm.trigger_kill_switch "manual").kill_switch_active = true ∧
    (((c2_rm.trigger_kill_switch "manual").deactivate_kill_switch).check_order
        c2_input.now c2_input.order c2_input.account c2_input.positions).2.1 =
      true := by
  have h := kill_switch_latches c2_rm "manual" [c2_input] c2_input rfl
    (by norm_num [c2_rm])
    (by norm_num [c2_rm, c2_input, c2_account])
    (by norm_num [c2_rm, c2_input, c2_account])
  simpa using h

/-! ## Claim C1 -/

/-- Sum of fill quantities. -/
def fillsQty (fs : List Fill) : ℚ := (fs.map (fun f => f.quantity)).sum

/-- Sum of price times quantity over fills. -/
def fillsNotional (fs : List Fill) : ℚ :=
  (fs.map (fun f => f.price * f.quantity)).sum

theorem process_fill_tracked (s : OMS) (f : Fill) (o : Order)
    (ho : dictGet? s.om.orders f.order_id = some o) (hq : 0 < f.quantity)
    (hnn : 0 ≤ o.filled_quantity) :
    ∃ o', dictGet? (s.process_fill f).om.orders f.order_id = some o' ∧
      o'.filled_quantity = o.filled_quantity + f.quantity ∧
      o'.average_fill_price * o'.filled_quantity =
        o.average_fill_price * o.filled_quantity + f.price * f.quantity := by
  have hpos : 0 < o.filled_quantity + f.quantity := by linarith
  have hne : o.filled_quantity + f.quantity ≠ 0 := ne_of_gt hpos
  unfold OMS.process_fill
  simp only [ho]
  rw [if_pos hpos]
  split_ifs with hfull <;>
  · refine ⟨_, dictGet?_dictSet_self _ _ _, rfl, ?_⟩
    dsimp only
    rw [div_mul_cancel₀ _ hne]
    ring

theorem runFills_tracked (fs : List Fill) (s : OMS) (oid : String) (o : Order)
    (ho : dictGet? s.om.orders oid = some o)
    (hf : ∀ f ∈ fs, 0 < f.quantity ∧ f.order_id = oid)
    (hnn : 0 ≤ o.filled_quantity) :
    ∃ o', dictGet? (s.runFills fs).om.orders oid = some o' ∧
      o'.filled_quantity = o.filled_quantity + fillsQty fs ∧
      o'.average_fill_price * o'.filled_quantity =
        o.average_fill_price * o.filled_quantity + fillsNotional fs := by
  induction fs generalizing s o with
  | nil => exact ⟨o, by simpa [OMS.runFills] using ho, by simp [fillsQty], by simp [fillsNotional]⟩
  | cons f rest ih =>
      obtain ⟨hq, hfid⟩ := hf f (by simp)
      subst hfid
      obtain ⟨o1, ho1, hfq1, hav1⟩ := process_fill_tracked s f o ho hq hnn
      have hstep : (s.runFills (f :: rest)) = ((s.process_fill f).runFills rest) := rfl
      obtain ⟨o2, ho2, hfq2, hav2⟩ := ih (s.process_fill f) o1 ho1
        (fun g hg => hf g (by simp [hg])) (by rw [hfq1]; linarith)
      refine ⟨o2, by rwa [hstep], ?_, ?_⟩
      · rw [hfq2, hfq1, fillsQty, fillsQty]
        simp [add_assoc]
      · rw [hav2, hav1, fillsNotional, fillsNotional]
        simp [add_assoc]

/-- C1: an order tracked by the OrderManager that starts with zero
filled quantity and zero average fill price ends, after any sequence of
positive-quantity fills for it goes through process_fill, with filled
quantity equal to the sum of the fill quantities and VWAP fill price
equal to the sum of price times quantity divided by the total quantity. -/
theorem vwap_after_fills (s : OMS) (oid : String) (o : Order) (fs : List Fill)
    (ho : dictGet? s.om.orders oid = some o)
    (hfq : o.filled_quantity = 0) (hap : o.average_fill_price = 0)
    (hq : ∀ f ∈ fs, 0 < f.quantity) (hid : ∀ f ∈ fs, f.order_id = oid) :
    ∃ o', dictGet? (s.runFills fs).om.orders oid = some o' ∧
      o'.filled_quantity = fillsQty fs ∧
      o'.average_fill_price = fillsNotional fs / fillsQty fs := by
  rcases eq_or_ne fs [] with rfl | hne
  · exact ⟨o, by simpa [OMS.runFills] using ho, by simp [fillsQty, hfq],
      by simp [fillsNotional, fillsQty, hap]⟩
  · obtain ⟨o', h1, h2, h3⟩ := runFills_tracked fs s oid o ho
      (fun f hf => ⟨hq f hf, hid f hf⟩) (by rw [hfq])
    rw [hfq, zero_add] at h2
    rw [hfq, hap] at h3
    simp only [zero_mul, zero_add] at h3
    have hpos : 0 < fillsQty fs := by
      refine List.sum_pos _ (fun x hx => ?_) ?_
      · obtain ⟨f, hf, rfl⟩ := List.mem_map.mp hx
        exact hq f hf
      · simpa using hne
    refine ⟨o', h1, h2, ?_⟩
    rw [eq_div_iff (ne_of_gt hpos), ← h2]
    exact h3

def c1_order : Order :=
  { order_id := "o1", symbol := "AAPL", side := OrderSide.buy
    order_type := OrderType.market, quantity := 10 }

def c1_oms : OMS :=
  { broker := { cash := 100000, connected := true, log1p := fun _ => 0 }
    om := { orders := [("o1", c1_order)], pending_orders := ["o1"] } }

def c1_f1 : Fill :=
  { fill_id := "f1", order_id := "o1", symbol := "AAPL"
    side := OrderSide.buy, quantity := 2, price := 100, commission := 0
    timestamp := 0 }

def c1_f2 : Fill :=
  { fill_id := "f2", order_id := "o1", symbol := "AAPL"
    side := OrderSide.buy, quantity := 3, price := 110, commission := 0
    timestamp := 1 }

/-- Witness for C1: two fills of 2@100 and 3@110 on a fresh order give
filled quantity 5 and VWAP 106. -/
theorem vwap_after_fills_witness :
    ∃ o', dictGet? (c1_oms.runFills [c1_f1, c1_f2]).om.orders "o1" = some o' ∧
      o'.filled_quantity = fillsQty [c1_f1, c1_f2] ∧
      o'.average_fill_price = fillsNotional [c1_f1, c1_f2] / fillsQty [c1_f1, c1_f2] :=
  vwap_after_fills c1_oms "o1" c1_order [c1_f1, c1_f2]
    (by simp [c1_oms, dictGet?]) rfl rfl
    (by norm_num [List.forall_mem_cons, c1_f1, c1_f2])
    (by simp [List.forall_mem_cons, c1_f1, c1_f2])

/-! ## Claim C3 -/

theorem reconcileDiscrepancies_snd (ds : List PositionDiscrepancy) :
    ∀ lp, (reconcileDiscrepancies lp ds).2 =
      ds.map (fun d =>
        if d.dtype = DiscrepancyType.priceMismatch then d
        else { d with resolved := true }) := by
  induction ds with
  | nil => intro lp; rfl
  | cons d rest ih =>
      intro lp
      simp only [reconcileDiscrepancies, List.map_cons, ih]
      congr 1
      obtain ⟨sym, dt, lq, bq, lpx, bpx, res⟩ := d
      cases dt <;> rfl

theorem localDiscrepancies_unresolved (bd : List (String × Position))
    (lpr : Option (List (String × ℚ))) (tol : ℚ)
    (lps : List (String × ℚ)) :
    ∀ d ∈ localDiscrepancies bd lpr tol lps, d.resolved = false := by
  induction lps with
  | nil => intro d hd; simp [localDiscrepancies] at hd
  | cons hdp rest ih =>
      intro d hd
      obtain ⟨sym, q⟩ := hdp
      simp only [localDiscrepancies, List.mem_append] at hd
      rcases hd with h | h
      · split at h
        · simp at h
        · split at h
          · simp at h
            subst h; rfl
          · simp only [List.mem_append] at h
            rcases h with h | h
            · split at h
              · simp at h; subst h; rfl
              · simp at h
            · split at h
              · split at h
                · split at h
                  · simp at h; subst h; rfl
                  · simp at h
                · simp at h
              · simp at h
      · exact ih d h

theorem brokerDiscrepancies_unresolved (lps : List (String × ℚ))
    (bd : List (String × Position)) :
    ∀ d ∈ brokerDiscrepancies lps bd, d.resolved = false := by
  induction bd with
  | nil => intro d hd; simp [brokerDiscrepancies] at hd
  | cons hdp rest ih =>
      intro d hd
      obtain ⟨sym, bp⟩ := hdp
      simp only [brokerDiscrepancies, List.mem_append] at hd
      rcases hd with h | h
      · split at h
        · simp at h
        · split at h
          · simp at h; subst h; rfl
          · simp at h
      · exact ih d h

theorem resolved_after_reconcile (lps : List (String × ℚ))
    (ds : List PositionDiscrepancy)
    (h0 : ∀ d0 ∈ ds, d0.resolved = false) :
    ∀ d0 ∈ (reconcileDiscrepancies lps ds).2,
      d0.resolved = decide (d0.dtype ≠ DiscrepancyType.priceMismatch) := by
  intro d0 hd0
  rw [reconcileDiscrepancies_snd] at hd0
  simp only [List.mem_map] at hd0
  obtain ⟨d1, hd1, rfl⟩ := hd0
  by_cases hp : d1.dtype = DiscrepancyType.priceMismatch
  · simp [hp, h0 d1 hd1]
  · simp [hp]

theorem sync_positions_resolved (tol : ℚ) (bps : List Position)
    (lps : List (String × ℚ)) (lpr : Option (List (String × ℚ)))
    (d : PositionDiscrepancy)
    (hd : d ∈ (sync_positions true tol bps lps lpr).report.discrepancies) :
    d.resolved = decide (d.dtype ≠ DiscrepancyType.priceMismatch) := by
  unfold sync_positions at hd
  simp only at hd
  split at hd
  · refine resolved_after_reconcile lps _ (fun d0 h => ?_) d hd
    rcases List.mem_append.mp h with h | h
    · exact localDiscrepancies_unresolved _ lpr tol lps d0 h
    · exact brokerDiscrepancies_unresolved lps _ d0 h
  · rename_i hcond
    simp only [true_and, not_not] at hcond
    simp only [List.length_eq_zero.mp hcond] at hd
    simp at hd

def s5_brA : Position :=
  { symbol := "AAPL", quantity := 10, average_price := 150
    current_price := 150, market_value := 1500, unrealized_pnl := 0 }

def s5_brM : Position :=
  { symbol := "MSFT", quantity := 5, average_price := 300
    current_price := 300, market_value := 1500, unrealized_pnl := 0 }

def s5_result : SyncResult :=
  sync_positions true (1/100) [s5_brA, s5_brM]
    [("AAPL", 10), ("MSFT", 3), ("TSLA", 7)] none

def s5_qm : PositionDiscrepancy :=
  { symbol := "MSFT", dtype := DiscrepancyType.quantityMismatch
    local_quantity := 3, broker_quantity := 5, local_price := none
    broker_price := some 300, resolved := true }

def s5_mb : PositionDiscrepancy :=
  { symbol := "TSLA", dtype := DiscrepancyType.missingBroker
    local_quantity := 7, broker_quantity := 0, broker_price := none
    resolved := true }

def c3w : PositionDiscrepancy :=
  { symbol := "TSLA", dtype := DiscrepancyType.missingBroker
    local_quantity := 7, broker_quantity := 0 }

/-- C3: with auto-reconcile enabled one sync pass resolves every
discrepancy except PriceMismatch - MissingLocal copies the broker
quantity into local, MissingBroker zeroes the local quantity,
QuantityMismatch adopts the broker quantity, PriceMismatch is left
unresolved - and on the S5 inputs the report holds exactly
QuantityMismatch(MSFT, 3, 5) and MissingBroker(TSLA) and the reconciled
local map is AAPL 10, MSFT 5, TSLA 0. -/
theorem auto_reconcile_policy :
    (∀ (lp : List (String × ℚ)) (d : PositionDiscrepancy),
      (d.dtype = DiscrepancyType.missingLocal →
        reconcileOne lp d =
          (dictSet lp d.symbol d.broker_quantity, { d with resolved := true })) ∧
      (d.dtype = DiscrepancyType.missingBroker →
        reconcileOne lp d = (dictSet lp d.symbol 0, { d with resolved := true })) ∧
      (d.dtype = DiscrepancyType.quantityMismatch →
        reconcileOne lp d =
          (dictSet lp d.symbol d.broker_quantity, { d with resolved := true })) ∧
      (d.dtype = DiscrepancyType.priceMismatch →
        reconcileOne lp d = (lp, d))) ∧
    (∀ (tol : ℚ) (bps : List Position) (lps : List (String × ℚ))
        (lpr : Option (List (String × ℚ))) (d : PositionDiscrepancy),
      d ∈ (sync_positions true tol bps lps lpr).report.discrepancies →
      d.resolved = decide (d.dtype ≠ DiscrepancyType.priceMismatch)) ∧
    s5_result.report.discrepancies = [s5_qm, s5_mb] ∧
    s5_result.local_positions = [("AAPL", 10), ("MSFT", 5), ("TSLA", 0)] := by
  refine ⟨?_, sync_positions_resolved, ?_, ?_⟩
  · intro lp d
    obtain ⟨sym, dt, lq, bq, lpx, bpx, res⟩ := d
    refine ⟨fun h => ?_, fun h => ?_, fun h => ?_, fun h => ?_⟩ <;>
      (simp only at h; subst h; rfl)
  all_goals {
    have ha : ¬(10:ℚ) = 0 := by norm_num
    have hb : ¬(3:ℚ) = 0 := by norm_num
    have hc : ¬(7:ℚ) = 0 := by norm_num
    have hd5 : ¬(5:ℚ) = 0 := by norm_num
    have h1 : ¬((1000:ℚ) < 0) := by norm_num
    have h2 : (1000:ℚ)⁻¹ < |(5:ℚ) - 3| := by norm_num
    simp [s5_result, s5_brA, s5_brM, s5_qm, s5_mb, sync_positions,
      localDiscrepancies, brokerDiscrepancies, reconcileDiscrepancies,
      reconcileOne, dictSet, dictGet?, dictMem, ha, hb, hc, hd5, h1, h2] }

/-- Witness for C3: the policy applied to a concrete MissingBroker
discrepancy, and the resolved flag of the concrete S5 quantity-mismatch
record. -/
theorem auto_reconcile_policy_witness :
    reconcileOne [] c3w = (dictSet [] c3w.symbol 0, { c3w with resolved := true }) ∧
    s5_qm.resolved = decide (s5_qm.dtype ≠ DiscrepancyType.priceMismatch) := by
  constructor
  · exact (auto_reconcile_policy.1 [] c3w).2.1 rfl
  · refine auto_reconcile_policy.2.1 (1/100) [s5_brA, s5_brM]
      [("AAPL", 10), ("MSFT", 3), ("TSLA", 7)] none s5_qm ?_
    have hres : sync_positions true (1/100) [s5_brA, s5_brM]
        [("AAPL", 10), ("MSFT", 3), ("TSLA", 7)] none = s5_result := rfl
    rw [hres, auto_reconcile_policy.2.2.1]
    simp

/-! ## Claim C7 -/

/-- C7 amended: a check_order call records the current timestamp into the
rate ring (after pruning entries older than one minute) before the
acceptance decision only when the kill switch is not latched; a latched
kill switch makes check_order return immediately without touching the
ring. -/
theorem check_order_timestamp_recording (rm : RiskManager) (now : ℚ)
    (order : Order) (account : Account) (positions : List Position) :
    (rm.check_order now order account positions).1.order_timestamps =
      if rm.kill_switch_active then rm.order_timestamps
      else rm.order_timestamps.filter (fun ts => now - 60 < ts) ++ [now] := by
  by_cases h : rm.kill_switch_active <;>
    simp only [RiskManager.check_order, RiskManager.check_order_rate,
      RiskManager.check_drawdown, h, if_true, if_false, ite_true, ite_false] <;>
    split_ifs <;> rfl

/-- A risk manager with the kill switch latched and an empty rate ring. -/
def c7_rm : RiskManager := { kill_switch_active := true }

/-- An arbitrary market order used by the risk-manager scenarios. -/
def c7_order : Order :=
  { order_id := "o1", symbol := "AAPL", side := OrderSide.buy
    order_type := OrderType.market, quantity := 1 }

/-- An arbitrary account used by the risk-manager scenarios. -/
def c7_account : Account :=
  { account_id := "a", cash := 0, equity := 0, buying_power := 0
    positions_value := 0, unrealized_pnl := 0, realized_pnl := 0
    initial_capital := 0 }

/-- C7 counterexample: with the kill switch latched, check_order leaves
the rate ring untouched, so the current timestamp is not appended. -/
theorem kill_switch_no_timestamp :
    (c7_rm.check_order 0 c7_order c7_account []).1.order_timestamps = [] ∧
    ¬ (0:ℚ) ∈ (c7_rm.check_order 0 c7_order c7_account []).1.order_timestamps := by
  constructor <;> simp [c7_rm, RiskManager.check_order]

/-! ## Claim C8 -/

/-- C8 amended: for every Signal event, if the engine state is not
Running the signal is dropped with the counter unchanged and no order is
constructed; otherwise the counter is incremented and the signal becomes
an order (Limit when the signal carries a non-zero price, else Market;
side from the action; quantity from the signal) that is only logged in
dry-run mode and otherwise submitted via the order manager. -/
theorem on_signal_dispatch (e : Engine) (sd : SignalData) :
    (e.state ≠ EngineState.running →
      e.on_signal sd = (e, SignalOutcome.dropped)) ∧
    (e.state = EngineState.running →
      (e.on_signal sd).1.signals_received = e.signals_received + 1 ∧
      (e.on_signal sd).2 =
        (if e.dry_run then SignalOutcome.dryRunLogged (Engine.signal_to_order sd)
         else SignalOutcome.submittedToOM (Engine.signal_to_order sd))) ∧
    (Engine.signal_to_order sd).order_type =
      (match sd.price with
       | some p => if p ≠ 0 then OrderType.limit else OrderType.market
       | none => OrderType.market) ∧
    (Engine.signal_to_order sd).side =
      (if sd.action = Action.buy then OrderSide.buy else OrderSide.sell) ∧
    (Engine.signal_to_order sd).quantity = sd.quantity := by
  refine ⟨fun h => by simp [Engine.on_signal, h], fun h => ?_, ?_, rfl, rfl⟩
  · constructor <;> simp [Engine.on_signal, h] <;> split_ifs <;> rfl
  · show (if sd.price.getD 0 ≠ 0 then OrderType.limit else OrderType.market) = _
    cases hp : sd.price with
    | none => simp
    | some p => simp

/-- A running non-dry-run engine with a zero signal counter. -/
def c8_engine : Engine := { state := EngineState.running }

/-- A signal carrying a price, used to exercise the running branch. -/
def c8_signal : SignalData :=
  { action := Action.buy, symbol := "AAPL", quantity := 10, price := some 150 }

/-- Witness for C8: a running engine counts the signal and hands the
translated order to the order manager. -/
theorem on_signal_dispatch_witness :
    (c8_engine.on_signal c8_signal).1.signals_received =
      c8_engine.signals_received + 1 ∧
    (c8_engine.on_signal c8_signal).2 =
      (if c8_engine.dry_run then
        SignalOutcome.dryRunLogged (Engine.signal_to_order c8_signal)
       else SignalOutcome.submittedToOM (Engine.signal_to_order c8_signal)) :=
  (on_signal_dispatch c8_engine c8_signal).2.1 rfl

/-- A paused engine with a zero signal counter. -/
def c8_paused : Engine := { state := EngineState.paused }

/-- C8 counterexample: a paused engine drops the signal without
incrementing the signal counter, contradicting the claim that every
handled Signal event increments it. -/
theorem dropped_signal_not_counted :
    (c8_paused.on_signal c8_signal).1.signals_received = 0 ∧
    (c8_paused.on_signal c8_signal).1.signals_received ≠
      c8_paused.signals_received + 1 ∧
    (c8_paused.on_signal c8_signal).2 = SignalOutcome.dropped := by
  refine ⟨rfl, by simp [c8_paused, Engine.on_signal, c8_signal], rfl⟩

end QuantX
